import Mathlib

/-!
Shallow embedding of the CDN DNS performance tester (cdn_iptv_tester.py).

Modelling conventions:
- Network and clock effects are modelled as explicit outcome data supplied by
  a Net record: each network call of the program corresponds to an outcome
  value chosen by the environment.
- Python floats are modelled as exact rationals; the jitter value involves a
  square root and is modelled as a real number.
- Python strings are modelled by Lean strings, with the string operations
  rebuilt structurally over the underlying character lists so that they
  compute by kernel reduction.
- JSON values reaching a str() conversion are modelled by their string
  rendering; a missing dictionary key is modelled by an Option that is none.
-/

namespace CDN

/-- Python str(x) for an optional string value: str(None) is the string None. -/
def pyStr : Option String → String
  | none => "None"
  | some s => s

/-- Contiguous-occurrence test on character lists: charsContain s pat is true
iff pat occurs contiguously inside s (the Python in operator on strings). -/
def charsContain : List Char → List Char → Bool
  | [], pat => pat.isEmpty
  | s@(_ :: tail), pat => pat.isPrefixOf s || charsContain tail pat

/-- Python substring containment: strContains s pat means pat occurs in s. -/
def strContains (s pat : String) : Bool :=
  charsContain s.toList pat.toList

/-- Python lower() restricted to basic latin letters, as in the data the
program handles. -/
def pyLower (s : String) : String :=
  ⟨s.data.map Char.toLower⟩

/-- Python any(x in s for x in pats). -/
def anyContained (s : String) (pats : List String) : Bool :=
  pats.any fun p => strContains s p

/-- Fuel-driven replacement of every occurrence of pat by rep, scanning left
to right (the Python str.replace semantics for a nonempty pattern). Structural
recursion on the fuel so that it reduces in the kernel. -/
def replaceAllAux (pat rep : List Char) : Nat → List Char → List Char
  | _, [] => []
  | 0, s => s
  | fuel + 1, s@(c :: tail) =>
    if pat ≠ [] && pat.isPrefixOf s then
      rep ++ replaceAllAux pat rep fuel (s.drop pat.length)
    else
      c :: replaceAllAux pat rep fuel tail

/-- Python str.replace for a nonempty pattern. -/
def pyReplace (s pat rep : String) : String :=
  ⟨replaceAllAux pat.toList rep.toList s.toList.length s.toList⟩

/-- identify_hosting_provider: ordered pattern table, first match wins. -/
def identify_hosting_provider (org asn : String) : String :=
  let org_lower := pyLower org
  let asn_str := pyLower asn
  if anyContained org_lower ["cloudflare", "cf-", "cloud flare"] then "Cloudflare"
  else if anyContained org_lower ["amazon", "aws", "amazon.com", "ec2"] then "Amazon Web Services (AWS)"
  else if anyContained org_lower ["google", "gcp", "google cloud"] then "Google Cloud Platform (GCP)"
  else if anyContained org_lower ["microsoft", "azure", "msft"] then "Microsoft Azure"
  else if anyContained org_lower ["digitalocean", "digital ocean"] then "DigitalOcean"
  else if anyContained org_lower ["linode", "akamai"] then "Linode/Akamai"
  else if anyContained org_lower ["ovh", "ovhcloud"] then "OVH"
  else if anyContained org_lower ["hetzner"] then "Hetzner"
  else if anyContained org_lower ["vultr"] then "Vultr"
  else if anyContained org_lower ["alibaba", "aliyun"] then "Alibaba Cloud"
  else if anyContained org_lower ["oracle", "oraclecloud"] then "Oracle Cloud"
  else if anyContained org_lower ["ibm", "softlayer"] then "IBM Cloud"
  else if anyContained org_lower ["rackspace"] then "Rackspace"
  else if anyContained org_lower ["contabo"] then "Contabo"
  else if anyContained org_lower ["fastly"] then "Fastly CDN"
  else if anyContained org_lower ["cdn77"] then "CDN77"
  else if anyContained org_lower ["stackpath", "highwinds"] then "StackPath"
  else if anyContained org_lower ["bunny", "bunnycdn"] then "BunnyCDN"
  else if asn_str ∈ ["13335", "as13335"] then "Cloudflare"
  else if asn_str ∈ ["16509", "as16509", "14618", "as14618"] then "Amazon Web Services (AWS)"
  else if asn_str ∈ ["15169", "as15169"] then "Google Cloud Platform (GCP)"
  else if asn_str ∈ ["8075", "as8075"] then "Microsoft Azure"
  else if anyContained org_lower ["hosting", "host", "server", "datacenter", "data center"] then
    "Hosting Provider (" ++ org ++ ")"
  else if anyContained org_lower ["telecom", "communications", "isp", "internet"] then
    "ISP/Telecom (" ++ org ++ ")"
  else if org = "" then "Unknown" else org

/-- Outcome of one HEAD probe request: an exception, or a response with its
round-trip time in milliseconds and its HTTP status. -/
inductive PingOutcome
  | exn
  | resp (latency_ms : ℚ) (status : Nat)
deriving DecidableEq

/-- The statuses measure_latency accepts as a valid sample. -/
def accepted_statuses : List Nat := [200, 302, 401, 403]

/-- The latency samples kept by the probe loop: exceptions are skipped, and a
response counts only when its status is in the accepted set. -/
def validLatencies (pings : List PingOutcome) : List ℚ :=
  pings.filterMap fun p =>
    match p with
    | .exn => none
    | .resp lat status => if status ∈ accepted_statuses then some lat else none

/-- statistics.mean on a list of rationals. -/
def mean (l : List ℚ) : ℚ := l.sum / l.length

/-- The sample variance used by statistics.stdev: sum of squared deviations
from the mean divided by n - 1. -/
def sampleVariance (l : List ℚ) : ℚ :=
  ((l.map fun x => (x - mean l) ^ 2).sum) / ((l.length : ℚ) - 1)

/-- statistics.stdev: square root of the sample variance. -/
noncomputable def sampleStdev (l : List ℚ) : ℝ :=
  Real.sqrt ((sampleVariance l : ℚ) : ℝ)

/-- The jitter computed by measure_latency: the sample standard deviation when
more than one sample exists, 0 otherwise. -/
noncomputable def jitterOf (l : List ℚ) : ℝ :=
  if 1 < l.length then sampleStdev l else 0

/-- measure_latency: each of the attempts is a PingOutcome; failed or
rejected attempts contribute no sample; with zero samples the probe returns
none, otherwise the pair of the mean latency and the jitter. -/
noncomputable def measure_latency (pings : List PingOutcome) : Option (ℚ × ℝ) :=
  let latencies := validLatencies pings
  if latencies.isEmpty then none
  else some (mean latencies, jitterOf latencies)

/-- Outcome of the streamed GET issued by measure_throughput: a timeout (with
the number of bytes already received), another exception, or a response with
its status, the bytes read, and the elapsed time in seconds at the end of the
read loop. -/
inductive GetOutcome
  | timeoutErr (bytes_downloaded : Nat)
  | otherErr
  | resp (status : Nat) (bytes_downloaded : Nat) (elapsed : ℚ)
deriving DecidableEq

/-- measure_throughput: a non-200 response yields none; a completed read
yields bytes * 8 / (elapsed * 1e6); a timeout with some bytes already
received yields bytes * 8 / (duration * 1e6); any other failure yields
none. -/
def measure_throughput (o : GetOutcome) (duration : ℚ := 5) : Option ℚ :=
  match o with
  | .resp status bytes elapsed =>
    if status ≠ 200 then none
    else some ((bytes * 8 : ℚ) / (elapsed * 1000000))
  | .timeoutErr bytes =>
    if 0 < bytes then some ((bytes * 8 : ℚ) / (duration * 1000000)) else none
  | .otherErr => none

/-- Outcome of the getaddrinfo call: an exception, or a list of resolved
addresses (already projected to their address strings). -/
inductive DnsOutcome
  | exn
  | ok (addrs : List String)
deriving DecidableEq

/-- resolve_dns: returns the first resolved address; any exception, including
the IndexError raised by indexing an empty result inside the try block, is
caught and turned into none. -/
def resolve_dns : DnsOutcome → Option String
  | .exn => none
  | .ok [] => none
  | .ok (ip :: _) => some ip

/-- The fields of the ipapi JSON document the classifier reads; none models a
missing key, and values are modelled by their string rendering. -/
structure ApiData where
  asn : Option String
  org : Option String
  city : Option String
  country_name : Option String
deriving DecidableEq

/-- Outcome of the ipapi lookup request. -/
inductive ApiOutcome
  | exn
  | resp (status : Nat) (data : ApiData)
deriving DecidableEq

/-- get_asn_info: on a 200 response builds the ASN, geolocation and hosting
labels; on any exception or any non-200 response returns three nones. -/
def get_asn_info : ApiOutcome → Option String × Option String × Option String
  | .exn => (none, none, none)
  | .resp status d =>
    if status = 200 then
      (some ("AS" ++ d.asn.getD "Unknown" ++ " - " ++ d.org.getD "Unknown"),
       some (d.city.getD "Unknown" ++ ", " ++ d.country_name.getD "Unknown"),
       some (identify_hosting_provider (d.org.getD "") (d.asn.getD "")))
    else (none, none, none)

/-- The tivimate user-agent string. -/
def tivimateUA : String := "TiviMate/4.4.0 (Android 11)"

/-- The vlc user-agent string. -/
def vlcUA : String := "VLC/3.0.18 LibVLC/3.0.18"

/-- The USER_AGENTS dictionary of CDNTester. -/
def USER_AGENTS : List (String × String) :=
  [("tivimate", tivimateUA), ("vlc", vlcUA)]

/-- The user-agent resolution done in the CDNTester constructor:
USER_AGENTS.get(user_agent.lower(), USER_AGENTS of tivimate). -/
def user_agent_of (user_agent : String) : String :=
  (USER_AGENTS.lookup (pyLower user_agent)).getD tivimateUA

/-- CDNTester state after construction. -/
structure CDNTester where
  username : String
  password : String
  user_agent : String
deriving DecidableEq

/-- The CDNTester constructor. -/
def mkCDNTester (username password : String) (user_agent : String := "tivimate") : CDNTester :=
  ⟨username, password, user_agent_of user_agent⟩

/-- A channel dictionary as consumed by the tester: a missing key is none,
and the stream_id value is modelled by its str() rendering. -/
structure Channel where
  stream_id : Option String
  name : Option String
deriving DecidableEq

/-- One TestResult record. -/
structure TestResult where
  dns_entry : String
  channel_id : String
  channel_name : String
  timestamp : String
  avg_latency_ms : ℚ
  jitter_ms : ℝ
  throughput_mbps : ℚ
  ip_address : String
  asn : Option String
  geolocation : Option String
  hosting_provider : Option String
  success_rate : ℚ
  error_message : Option String

/-- Python round to an integer: round half to even on the exact value. -/
def pyRoundQ (x : ℚ) : ℤ :=
  if x - ⌊x⌋ = 1 / 2 then (if Even ⌊x⌋ then ⌊x⌋ else ⌊x⌋ + 1) else round x

/-- Python round(x, 2) on the exact rational value. -/
def pyRound2 (x : ℚ) : ℚ := (pyRoundQ (x * 100) : ℚ) / 100

/-- Python round to an integer on a real value (round half to even). -/
noncomputable def pyRoundR (x : ℝ) : ℤ :=
  if x - ⌊x⌋ = 1 / 2 then (if Even ⌊x⌋ then ⌊x⌋ else ⌊x⌋ + 1) else round x

/-- Python round(x, 2) on a real value. -/
noncomputable def pyRound2R (x : ℝ) : ℝ := (pyRoundR (x * 100) : ℝ) / 100

/-- The environment of one run: the outcome of every network call, keyed by
its argument, plus the wall clock reading used for timestamps. -/
structure Net where
  resolve : String → DnsOutcome
  asnApi : String → ApiOutcome
  ping : String → List PingOutcome
  download : String → GetOutcome
  now : String

/-- The failure record synthesized for one channel when DNS resolution of the
endpoint fails. -/
def dns_fail_record (now dns_entry : String) (c : Channel) : TestResult :=
  { dns_entry := dns_entry
    channel_id := c.stream_id.getD "unknown"
    channel_name := c.name.getD "Unknown"
    timestamp := now
    avg_latency_ms := 0
    jitter_ms := 0
    throughput_mbps := 0
    ip_address := "N/A"
    asn := none
    geolocation := none
    hosting_provider := none
    success_rate := 0
    error_message := some "DNS resolution failed" }

/-- The failure record synthesized for one channel when the latency probe
returns no data. -/
def latency_fail_record (now dns_entry ip : String)
    (info : Option String × Option String × Option String) (c : Channel) : TestResult :=
  { dns_entry := dns_entry
    channel_id := pyStr c.stream_id
    channel_name := c.name.getD "Unknown"
    timestamp := now
    avg_latency_ms := 0
    jitter_ms := 0
    throughput_mbps := 0
    ip_address := ip
    asn := info.1
    geolocation := info.2.1
    hosting_provider := info.2.2
    success_rate := 0
    error_message := some "Connection failed" }

/-- The record built after a successful latency probe; the throughput slot is
the raw result of measure_throughput, with a falsy value degraded to 0. -/
noncomputable def success_record (now dns_entry ip : String)
    (info : Option String × Option String × Option String) (c : Channel)
    (avg : ℚ) (jit : ℝ) (throughput : Option ℚ) : TestResult :=
  { dns_entry := dns_entry
    channel_id := pyStr c.stream_id
    channel_name := c.name.getD "Unknown"
    timestamp := now
    avg_latency_ms := pyRound2 avg
    jitter_ms := pyRound2R jit
    throughput_mbps :=
      match throughput with
      | some v => if v = 0 then 0 else pyRound2 v
      | none => 0
    ip_address := ip
    asn := info.1
    geolocation := info.2.1
    hosting_provider := info.2.2
    success_rate := 100
    error_message := none }

/-- The stream URL built for one channel. -/
def stream_url (t : CDNTester) (dns_entry : String) (c : Channel) : String :=
  dns_entry ++ "/live/" ++ t.username ++ "/" ++ t.password ++ "/" ++ pyStr c.stream_id ++ ".ts"

/-- The per-channel body of the test_endpoint loop: probe latency; with no
latency data emit the failure record and move on, otherwise measure
throughput and emit the success record. -/
noncomputable def channel_result (t : CDNTester) (net : Net) (dns_entry ip : String)
    (info : Option String × Option String × Option String) (c : Channel) : TestResult :=
  let url := stream_url t dns_entry c
  match measure_latency (net.ping url) with
  | none => latency_fail_record net.now dns_entry ip info c
  | some (avg, jit) =>
    success_record net.now dns_entry ip info c avg jit
      (measure_throughput (net.download url) 5)

/-- The domain extracted from the endpoint address: scheme stripped, then the
part before the first slash (replace of http and https then split on slash,
first component). -/
def strip_domain (dns_entry : String) : String :=
  ⟨((pyReplace (pyReplace dns_entry "http://" "") "https://" "").data).takeWhile
    (fun c => c != '/')⟩

/-- test_endpoint: resolve once; a falsy resolution result (none, or an empty
address) yields one DNS failure record per channel; otherwise classify once
and run the per-channel loop. -/
noncomputable def test_endpoint (t : CDNTester) (net : Net) (dns_entry : String)
    (channels : List Channel) : List TestResult :=
  let domain := strip_domain dns_entry
  match resolve_dns (net.resolve domain) with
  | none => channels.map (dns_fail_record net.now dns_entry)
  | some ip =>
    if ip = "" then channels.map (dns_fail_record net.now dns_entry)
    else
      let info := get_asn_info (net.asnApi ip)
      channels.map (channel_result t net dns_entry ip info)

/-- run_tests: sequentially test every endpoint and concatenate the records. -/
noncomputable def run_tests (t : CDNTester) (net : Net) (dns_entries : List String)
    (channels : List Channel) : List TestResult :=
  dns_entries.flatMap fun e => test_endpoint t net e channels

/-- One step of the insertion-ordered grouping dictionary of generate_report. -/
def add_to_group (acc : List (String × List TestResult)) (r : TestResult) :
    List (String × List TestResult) :=
  match acc with
  | [] => [(r.dns_entry, [r])]
  | (k, rs) :: rest =>
    if k = r.dns_entry then (k, rs ++ [r]) :: rest
    else (k, rs) :: add_to_group rest r

/-- The by_dns dictionary: records grouped by endpoint in first-seen order. -/
def by_dns (results : List TestResult) : List (String × List TestResult) :=
  results.foldl add_to_group []

/-- The successful subset of a group: records with a positive success rate. -/
def successful_results (rs : List TestResult) : List TestResult :=
  rs.filter fun r => decide (0 < r.success_rate)

/-- The composite score of one group: mean latency minus ten times mean
throughput over the successful records, positive infinity when none. -/
def dns_score (rs : List TestResult) : WithTop ℚ :=
  let s := successful_results rs
  if s.isEmpty then ⊤
  else ((mean (s.map TestResult.avg_latency_ms)
    - mean (s.map TestResult.throughput_mbps) * 10 : ℚ) : WithTop ℚ)

/-- The dns_scores dictionary in insertion order. -/
def dns_scores (results : List TestResult) : List (String × WithTop ℚ) :=
  (by_dns results).map fun g => (g.1, dns_score g.2)

/-- The comparison used to rank endpoints: ascending by score. -/
def score_le (a b : String × WithTop ℚ) : Bool := decide (a.2 ≤ b.2)

/-- sorted_dns: the ranking, a stable ascending sort of the scored groups. -/
def sorted_dns (results : List TestResult) : List (String × WithTop ℚ) :=
  (dns_scores results).mergeSort score_le

/-- The (endpoint, item identifier) key of a record. -/
def record_key (r : TestResult) : String × String := (r.dns_entry, r.channel_id)

/-- The identifier a channel carries into the records of the main loop. -/
def channel_key (c : Channel) : String := pyStr c.stream_id

/-- Whether the elapsed reading of a GetOutcome is nonnegative (a wall clock
difference is never negative in the program). -/
def elapsed_nonneg : GetOutcome → Prop
  | .resp _ _ e => 0 ≤ e
  | _ => True

/-- The disjunction of every guard of the identify_hosting_provider table. -/
def provider_rule_matched (org asn : String) : Bool :=
  let org_lower := pyLower org
  let asn_str := pyLower asn
  anyContained org_lower ["cloudflare", "cf-", "cloud flare"] ||
  (anyContained org_lower ["amazon", "aws", "amazon.com", "ec2"] ||
  (anyContained org_lower ["google", "gcp", "google cloud"] ||
  (anyContained org_lower ["microsoft", "azure", "msft"] ||
  (anyContained org_lower ["digitalocean", "digital ocean"] ||
  (anyContained org_lower ["linode", "akamai"] ||
  (anyContained org_lower ["ovh", "ovhcloud"] ||
  (anyContained org_lower ["hetzner"] ||
  (anyContained org_lower ["vultr"] ||
  (anyContained org_lower ["alibaba", "aliyun"] ||
  (anyContained org_lower ["oracle", "oraclecloud"] ||
  (anyContained org_lower ["ibm", "softlayer"] ||
  (anyContained org_lower ["rackspace"] ||
  (anyContained org_lower ["contabo"] ||
  (anyContained org_lower ["fastly"] ||
  (anyContained org_lower ["cdn77"] ||
  (anyContained org_lower ["stackpath", "highwinds"] ||
  (anyContained org_lower ["bunny", "bunnycdn"] ||
  (decide (asn_str ∈ ["13335", "as13335"]) ||
  (decide (asn_str ∈ ["16509", "as16509", "14618", "as14618"]) ||
  (decide (asn_str ∈ ["15169", "as15169"]) ||
  (decide (asn_str ∈ ["8075", "as8075"]) ||
  (anyContained org_lower ["hosting", "host", "server", "datacenter", "data center"] ||
  anyContained org_lower ["telecom", "communications", "isp", "internet"]))))))))))))))))))))))

lemma append_left_ne_empty (a b : String) (ha : a ≠ "") : a ++ b ≠ "" := by
  intro hc
  apply ha
  apply String.ext
  have hdata := congrArg String.data hc
  rw [String.data_append] at hdata
  exact (List.append_eq_nil.mp hdata).1

/-- Claim C10: constructing a CDNTester with a user_agent whose lower-cased
value is not a known key silently falls back to the tivimate user agent; the
lookup is case-insensitive; for every input the applied user agent is one of
the two known strings. -/
theorem user_agent_fallback (username password ua : String) :
    ((mkCDNTester username password ua).user_agent = tivimateUA ∨
      (mkCDNTester username password ua).user_agent = vlcUA) ∧
    (pyLower ua ≠ "tivimate" → pyLower ua ≠ "vlc" →
      (mkCDNTester username password ua).user_agent = tivimateUA) ∧
    (pyLower ua = "tivimate" → (mkCDNTester username password ua).user_agent = tivimateUA) ∧
    (pyLower ua = "vlc" → (mkCDNTester username password ua).user_agent = vlcUA) := by
  by_cases h1 : pyLower ua = "tivimate"
  · refine ⟨?_, ?_, ?_, ?_⟩ <;>
      simp [mkCDNTester, user_agent_of, USER_AGENTS, List.lookup, h1]
  · have hb1 : (pyLower ua == "tivimate") = false := by simp [h1]
    by_cases h2 : pyLower ua = "vlc"
    · refine ⟨?_, ?_, ?_, ?_⟩ <;>
        simp [mkCDNTester, user_agent_of, USER_AGENTS, List.lookup, hb1, h1, h2]
    · have hb2 : (pyLower ua == "vlc") = false := by simp [h2]
      refine ⟨?_, ?_, ?_, ?_⟩ <;>
        simp [mkCDNTester, user_agent_of, USER_AGENTS, List.lookup, hb1, hb2, h1, h2]

/-- Claim C10 witness at concrete inputs. -/
theorem user_agent_fallback_witness :
    (mkCDNTester "u" "p" "FooBar").user_agent = tivimateUA ∧
    (mkCDNTester "u" "p" "VLC").user_agent = vlcUA :=
  ⟨(user_agent_fallback "u" "p" "FooBar").2.1 (by decide) (by decide),
   (user_agent_fallback "u" "p" "VLC").2.2.2 (by decide)⟩

/-- Claim C8: resolve_dns returns none on any resolution failure (exception
or empty address list) instead of raising, and otherwise the first address;
get_asn_info returns three null fields on any network failure or non-200
response, never failing the caller. -/
theorem network_failures_contained :
    resolve_dns .exn = none ∧
    (∀ addrs, resolve_dns (.ok addrs) = addrs.head?) ∧
    (∀ o, resolve_dns o = none ↔ o = .exn ∨ o = .ok []) ∧
    get_asn_info .exn = (none, none, none) ∧
    (∀ s d, s ≠ 200 → get_asn_info (.resp s d) = (none, none, none)) := by
  refine ⟨rfl, ?_, ?_, rfl, ?_⟩
  · intro addrs; cases addrs <;> rfl
  · intro o
    cases o with
    | exn => simp [resolve_dns]
    | ok addrs => cases addrs <;> simp [resolve_dns]
  · intro s d h
    simp [get_asn_info, h]

/-- Claim C8 witness at concrete inputs. -/
theorem network_failures_contained_witness :
    resolve_dns (.ok ["1.2.3.4"]) = some "1.2.3.4" ∧
    get_asn_info (.resp 500 ⟨none, none, none, none⟩) = (none, none, none) :=
  ⟨by simpa using network_failures_contained.2.1 ["1.2.3.4"],
   network_failures_contained.2.2.2.2 500 ⟨none, none, none, none⟩ (by decide)⟩

/-- Claim C5: when the download request times out with some bytes already
received, measure_throughput still returns bytes * 8 / (duration * 1e6) with
the configured duration as denominator; a timeout with zero bytes, any other
exception and any non-200 response yield none; every returned value is
nonnegative (and finite, being a rational number). -/
theorem measure_throughput_spec (duration : ℚ) (hd : 0 ≤ duration) :
    (∀ b : Nat, 0 < b →
      measure_throughput (.timeoutErr b) duration =
        some ((b * 8 : ℚ) / (duration * 1000000))) ∧
    measure_throughput (.timeoutErr 0) duration = none ∧
    (∀ s bytes elapsed, s ≠ 200 →
      measure_throughput (.resp s bytes elapsed) duration = none) ∧
    measure_throughput .otherErr duration = none ∧
    (∀ o v, elapsed_nonneg o → measure_throughput o duration = some v → 0 ≤ v) := by
  refine ⟨?_, ?_, ?_, rfl, ?_⟩
  · intro b hb; simp [measure_throughput, hb]
  · simp [measure_throughput]
  · intro s bytes elapsed h; simp [measure_throughput, h]
  · intro o v he hv
    cases o with
    | timeoutErr b =>
      rw [measure_throughput] at hv
      by_cases hb : 0 < b
      · rw [if_pos hb, Option.some_inj] at hv
        subst hv
        apply div_nonneg (by positivity) (by positivity)
      · rw [if_neg hb] at hv; exact absurd hv (by simp)
    | otherErr => exact absurd hv (by simp [measure_throughput])
    | resp s bytes elapsed =>
      rw [measure_throughput] at hv
      by_cases hs : s ≠ 200
      · rw [if_pos hs] at hv; exact absurd hv (by simp)
      · rw [if_neg hs, Option.some_inj] at hv
        subst hv
        have he' : (0 : ℚ) ≤ elapsed := he
        apply div_nonneg (by positivity) (by positivity)

/-- Claim C5 witness at concrete inputs. -/
theorem measure_throughput_spec_witness :
    (0 : ℚ) ≤ 5 ∧
    measure_throughput (.timeoutErr 1000000) 5 = some ((1000000 * 8 : ℚ) / (5 * 1000000)) ∧
    measure_throughput (.resp 404 10 1) 5 = none :=
  ⟨by norm_num,
   (measure_throughput_spec 5 (by norm_num)).1 1000000 (by norm_num),
   (measure_throughput_spec 5 (by norm_num)).2.2.1 404 10 1 (by norm_num)⟩

/-- Claim C7: whenever measure_latency returns a pair, the jitter is
nonnegative; it is exactly 0 when exactly one valid sample was obtained, and
equals the sample standard deviation of the samples when more than one was
obtained. -/
theorem jitter_spec (pings : List PingOutcome) (avg : ℚ) (jit : ℝ)
    (h : measure_latency pings = some (avg, jit)) :
    0 ≤ jit ∧
    ((validLatencies pings).length = 1 → jit = 0) ∧
    (1 < (validLatencies pings).length → jit = sampleStdev (validLatencies pings)) := by
  have hj : jit = jitterOf (validLatencies pings) := by
    simp only [measure_latency] at h
    by_cases hc : (validLatencies pings).isEmpty
    · simp [hc] at h
    · simp [hc] at h
      exact h.2.symm
  subst hj
  refine ⟨?_, ?_, ?_⟩
  · rw [jitterOf]
    split
    · exact Real.sqrt_nonneg _
    · exact le_refl 0
  · intro h1
    rw [jitterOf, if_neg (by omega)]
  · intro h1
    rw [jitterOf, if_pos h1]

/-- Claim C7 witness: a single valid sample yields jitter 0. -/
theorem jitter_spec_witness :
    measure_latency [.resp 10 200] = some (10, jitterOf [10]) ∧
    (0 : ℝ) ≤ jitterOf [10] ∧ jitterOf [10] = 0 := by
  have hml : measure_latency [PingOutcome.resp 10 200] = some (10, jitterOf [10]) := by
    have hv : validLatencies [PingOutcome.resp 10 200] = [10] := by decide
    simp only [measure_latency, hv]
    simp [mean]
  exact ⟨hml, (jitter_spec _ _ _ hml).1, (jitter_spec _ _ _ hml).2.1 (by decide)⟩

/-- Claim C6: a response is a valid sample only when its status is in the
accepted set (200, 302, 401, 403); failed or rejected attempts are skipped
rather than aborting; a probe of 5 attempts with 2 failures still returns a
pair computed over the 3 successful samples; zero samples yield none. -/
theorem measure_latency_partial_failure :
    (∀ pings, measure_latency pings = none ↔ validLatencies pings = []) ∧
    (∀ lat s rest, validLatencies (.resp lat s :: rest) =
      (if s ∈ accepted_statuses then [lat] else []) ++ validLatencies rest) ∧
    (∀ rest, validLatencies (.exn :: rest) = validLatencies rest) ∧
    (∀ lat s rest, s ∉ accepted_statuses →
      measure_latency (.resp lat s :: rest) = measure_latency rest) ∧
    (∀ rest, measure_latency (.exn :: rest) = measure_latency rest) ∧
    measure_latency [.resp 10 200, .exn, .resp 20 302, .exn, .resp 30 401] =
      some (20, jitterOf [10, 20, 30]) := by
  have hcons : ∀ lat s rest, validLatencies (.resp lat s :: rest) =
      (if s ∈ accepted_statuses then [lat] else []) ++ validLatencies rest := by
    intro lat s rest
    by_cases hs : s ∈ accepted_statuses <;>
      simp [validLatencies, hs]
  have hexn : ∀ rest, validLatencies (.exn :: rest) = validLatencies rest := by
    intro rest; simp [validLatencies]
  refine ⟨?_, hcons, hexn, ?_, ?_, ?_⟩
  · intro pings
    simp only [measure_latency]
    split
    next h => simp [List.isEmpty_iff.mp h]
    next h =>
      simp only [List.isEmpty_iff] at h
      simp [h]
  · intro lat s rest hs
    simp only [measure_latency, hcons lat s rest, if_neg hs, List.nil_append]
  · intro rest
    simp only [measure_latency, hexn rest]
  · have hv : validLatencies [PingOutcome.resp 10 200, PingOutcome.exn,
        PingOutcome.resp 20 302, PingOutcome.exn, PingOutcome.resp 30 401] = [10, 20, 30] := by
      decide
    have hm : mean [(10 : ℚ), 20, 30] = 20 := by
      simp [mean]
      norm_num
    simp only [measure_latency, hv, hm]
    simp

set_option maxHeartbeats 4000000 in
/-- Claim C3: identify_hosting_provider is total and never returns an empty
string; the specific cloudflare pattern wins over every later pattern even
when a generic substring such as hosting is also present; when no pattern in
the table matches, the raw organization string is returned, or Unknown when
it is empty. -/
theorem identify_hosting_provider_spec (org asn : String) :
    identify_hosting_provider org asn ≠ "" ∧
    (strContains (pyLower org) "cloudflare" = true →
      identify_hosting_provider org asn = "Cloudflare") ∧
    (provider_rule_matched org asn = false →
      identify_hosting_provider org asn = if org = "" then "Unknown" else org) := by
  refine ⟨?_, ?_, ?_⟩
  · simp only [identify_hosting_provider]
    by_cases h1 : anyContained (pyLower org) ["cloudflare", "cf-", "cloud flare"] = true
    · rw [if_pos h1]; decide
    rw [if_neg h1]
    by_cases h2 : anyContained (pyLower org) ["amazon", "aws", "amazon.com", "ec2"] = true
    · rw [if_pos h2]; decide
    rw [if_neg h2]
    by_cases h3 : anyContained (pyLower org) ["google", "gcp", "google cloud"] = true
    · rw [if_pos h3]; decide
    rw [if_neg h3]
    by_cases h4 : anyContained (pyLower org) ["microsoft", "azure", "msft"] = true
    · rw [if_pos h4]; decide
    rw [if_neg h4]
    by_cases h5 : anyContained (pyLower org) ["digitalocean", "digital ocean"] = true
    · rw [if_pos h5]; decide
    rw [if_neg h5]
    by_cases h6 : anyContained (pyLower org) ["linode", "akamai"] = true
    · rw [if_pos h6]; decide
    rw [if_neg h6]
    by_cases h7 : anyContained (pyLower org) ["ovh", "ovhcloud"] = true
    · rw [if_pos h7]; decide
    rw [if_neg h7]
    by_cases h8 : anyContained (pyLower org) ["hetzner"] = true
    · rw [if_pos h8]; decide
    rw [if_neg h8]
    by_cases h9 : anyContained (pyLower org) ["vultr"] = true
    · rw [if_pos h9]; decide
    rw [if_neg h9]
    by_cases h10 : anyContained (pyLower org) ["alibaba", "aliyun"] = true
    · rw [if_pos h10]; decide
    rw [if_neg h10]
    by_cases h11 : anyContained (pyLower org) ["oracle", "oraclecloud"] = true
    · rw [if_pos h11]; decide
    rw [if_neg h11]
    by_cases h12 : anyContained (pyLower org) ["ibm", "softlayer"] = true
    · rw [if_pos h12]; decide
    rw [if_neg h12]
    by_cases h13 : anyContained (pyLower org) ["rackspace"] = true
    · rw [if_pos h13]; decide
    rw [if_neg h13]
    by_cases h14 : anyContained (pyLower org) ["contabo"] = true
    · rw [if_pos h14]; decide
    rw [if_neg h14]
    by_cases h15 : anyContained (pyLower org) ["fastly"] = true
    · rw [if_pos h15]; decide
    rw [if_neg h15]
    by_cases h16 : anyContained (pyLower org) ["cdn77"] = true
    · rw [if_pos h16]; decide
    rw [if_neg h16]
    by_cases h17 : anyContained (pyLower org) ["stackpath", "highwinds"] = true
    · rw [if_pos h17]; decide
    rw [if_neg h17]
    by_cases h18 : anyContained (pyLower org) ["bunny", "bunnycdn"] = true
    · rw [if_pos h18]; decide
    rw [if_neg h18]
    by_cases h19 : pyLower asn ∈ ["13335", "as13335"]
    · rw [if_pos h19]; decide
    rw [if_neg h19]
    by_cases h20 : pyLower asn ∈ ["16509", "as16509", "14618", "as14618"]
    · rw [if_pos h20]; decide
    rw [if_neg h20]
    by_cases h21 : pyLower asn ∈ ["15169", "as15169"]
    · rw [if_pos h21]; decide
    rw [if_neg h21]
    by_cases h22 : pyLower asn ∈ ["8075", "as8075"]
    · rw [if_pos h22]; decide
    rw [if_neg h22]
    by_cases h23 : anyContained (pyLower org) ["hosting", "host", "server", "datacenter", "data center"] = true
    · rw [if_pos h23]
      apply append_left_ne_empty
      apply append_left_ne_empty
      decide
    rw [if_neg h23]
    by_cases h24 : anyContained (pyLower org) ["telecom", "communications", "isp", "internet"] = true
    · rw [if_pos h24]
      apply append_left_ne_empty
      apply append_left_ne_empty
      decide
    rw [if_neg h24]
    by_cases h25 : org = ""
    · rw [if_pos h25]; decide
    rw [if_neg h25]
    exact h25
  · intro h
    have hc : anyContained (pyLower org) ["cloudflare", "cf-", "cloud flare"] = true := by
      simp only [anyContained, List.any_cons, List.any_nil, Bool.or_eq_true]
      exact Or.inl h
    simp only [identify_hosting_provider]
    simp [hc]
  · intro h
    simp only [provider_rule_matched, Bool.or_eq_false_iff, decide_eq_false_iff_not] at h
    obtain ⟨h1, h2, h3, h4, h5, h6, h7, h8, h9, h10, h11, h12, h13, h14, h15, h16, h17,
      h18, h19, h20, h21, h22, h23, h24⟩ := h
    simp only [identify_hosting_provider]
    rw [if_neg (ne_true_of_eq_false h1),
      if_neg (ne_true_of_eq_false h2),
      if_neg (ne_true_of_eq_false h3),
      if_neg (ne_true_of_eq_false h4),
      if_neg (ne_true_of_eq_false h5),
      if_neg (ne_true_of_eq_false h6),
      if_neg (ne_true_of_eq_false h7),
      if_neg (ne_true_of_eq_false h8),
      if_neg (ne_true_of_eq_false h9),
      if_neg (ne_true_of_eq_false h10),
      if_neg (ne_true_of_eq_false h11),
      if_neg (ne_true_of_eq_false h12),
      if_neg (ne_true_of_eq_false h13),
      if_neg (ne_true_of_eq_false h14),
      if_neg (ne_true_of_eq_false h15),
      if_neg (ne_true_of_eq_false h16),
      if_neg (ne_true_of_eq_false h17),
      if_neg (ne_true_of_eq_false h18),
      if_neg h19,
      if_neg h20,
      if_neg h21,
      if_neg h22,
      if_neg (ne_true_of_eq_false h23),
      if_neg (ne_true_of_eq_false h24)]

set_option maxHeartbeats 4000000 in
/-- Claim C3 witness: an organization containing both the cloudflare and the
hosting substrings classifies as Cloudflare; an organization matching no
pattern is returned raw; the empty organization yields Unknown. -/
theorem identify_hosting_provider_spec_witness :
    strContains (pyLower "Cloudflare Hosting Services") "cloudflare" = true ∧
    identify_hosting_provider "Cloudflare Hosting Services" "" = "Cloudflare" ∧
    provider_rule_matched "Quantum Widgets LLC" "" = false ∧
    identify_hosting_provider "Quantum Widgets LLC" "" = "Quantum Widgets LLC" ∧
    identify_hosting_provider "" "" = "Unknown" := by
  refine ⟨by decide, (identify_hosting_provider_spec _ "").2.1 (by decide), by decide, ?_, ?_⟩
  · have h := (identify_hosting_provider_spec "Quantum Widgets LLC" "").2.2 (by decide)
    simpa using h
  · have h := (identify_hosting_provider_spec "" "").2.2 (by decide)
    simpa using h

/-- A channel fixture. -/
def chW : Channel := ⟨some "1", some "x"⟩

/-- A second channel fixture. -/
def chW2 : Channel := ⟨some "2", some "y"⟩

/-- A tester fixture. -/
def tW : CDNTester := mkCDNTester "u" "p" "tivimate"

/-- A classification fixture. -/
def infoW : Option String × Option String × Option String := (none, none, none)

/-- An environment in which every DNS resolution fails. -/
def netFail : Net :=
  ⟨fun _ => .exn, fun _ => .exn, fun _ => [], fun _ => .otherErr, "t0"⟩

/-- An environment in which DNS resolves but every probe attempt fails. -/
def netNoPing : Net :=
  ⟨fun _ => .ok ["1.2.3.4"], fun _ => .exn, fun _ => [], fun _ => .otherErr, "t0"⟩

/-- An environment in which DNS resolves, one probe attempt succeeds, and the
throughput download fails. -/
def netPingOnly : Net :=
  ⟨fun _ => .ok ["1.2.3.4"], fun _ => .exn, fun _ => [.resp 10 200], fun _ => .otherErr, "t0"⟩

/-- Claim C4: when the latency probe returns no data, the per-channel step
emits the failure record for that channel only (success indicator 0, error
set, zero metrics) and never consults the download outcome; when the probe
succeeds but the throughput measurement fails, the step still emits a record
with success indicator 100 and throughput forced to 0 — the indicator depends
only on the latency outcome. -/
theorem channel_result_isolation (t : CDNTester) (net : Net) (dns_entry ip : String)
    (info : Option String × Option String × Option String) (c : Channel) :
    (measure_latency (net.ping (stream_url t dns_entry c)) = none →
      channel_result t net dns_entry ip info c = latency_fail_record net.now dns_entry ip info c ∧
      (channel_result t net dns_entry ip info c).success_rate = 0 ∧
      (channel_result t net dns_entry ip info c).error_message = some "Connection failed" ∧
      (channel_result t net dns_entry ip info c).avg_latency_ms = 0 ∧
      (channel_result t net dns_entry ip info c).throughput_mbps = 0 ∧
      (∀ g : String → GetOutcome,
        channel_result t { net with download := g } dns_entry ip info c =
          channel_result t net dns_entry ip info c)) ∧
    (∀ avg jit, measure_latency (net.ping (stream_url t dns_entry c)) = some (avg, jit) →
      measure_throughput (net.download (stream_url t dns_entry c)) 5 = none →
      (channel_result t net dns_entry ip info c).success_rate = 100 ∧
      (channel_result t net dns_entry ip info c).throughput_mbps = 0 ∧
      (channel_result t net dns_entry ip info c).error_message = none) := by
  constructor
  · intro h
    have hcr : channel_result t net dns_entry ip info c =
        latency_fail_record net.now dns_entry ip info c := by
      simp only [channel_result, h]
    refine ⟨hcr, ?_, ?_, ?_, ?_, ?_⟩
    · rw [hcr]; rfl
    · rw [hcr]; rfl
    · rw [hcr]; rfl
    · rw [hcr]; rfl
    · intro g
      have hp : ({ net with download := g } : Net).ping = net.ping := rfl
      have hn : ({ net with download := g } : Net).now = net.now := rfl
      simp only [channel_result, hp, hn, h]
  · intro avg jit h ht
    refine ⟨?_, ?_, ?_⟩ <;> simp only [channel_result, h, ht, success_record]

/-- Claim C4 witness at concrete environments. -/
theorem channel_result_isolation_witness :
    channel_result tW netNoPing "http://a" "1.2.3.4" infoW chW =
      latency_fail_record "t0" "http://a" "1.2.3.4" infoW chW ∧
    (channel_result tW netPingOnly "http://a" "1.2.3.4" infoW chW).success_rate = 100 ∧
    (channel_result tW netPingOnly "http://a" "1.2.3.4" infoW chW).throughput_mbps = 0 ∧
    (channel_result tW netPingOnly "http://a" "1.2.3.4" infoW chW).error_message = none := by
  have h1 : measure_latency (netNoPing.ping (stream_url tW "http://a" chW)) = none := rfl
  have h2 : measure_latency (netPingOnly.ping (stream_url tW "http://a" chW)) =
      some (10, jitterOf [10]) := by
    have hv : validLatencies [PingOutcome.resp 10 200] = [10] := by decide
    show measure_latency [PingOutcome.resp 10 200] = some (10, jitterOf [10])
    simp only [measure_latency, hv]
    simp [mean]
  have h3 : measure_throughput (netPingOnly.download (stream_url tW "http://a" chW)) 5 = none := rfl
  obtain ⟨ha, -, -, -, -, -⟩ :=
    (channel_result_isolation tW netNoPing "http://a" "1.2.3.4" infoW chW).1 h1
  obtain ⟨hf, hg, hh⟩ :=
    (channel_result_isolation tW netPingOnly "http://a" "1.2.3.4" infoW chW).2
      10 (jitterOf [10]) h2 h3
  exact ⟨ha, hf, hg, hh⟩

lemma channel_result_eq_fail (t : CDNTester) (net : Net) (e ip : String)
    (info : Option String × Option String × Option String) (c : Channel)
    (h : measure_latency (net.ping (stream_url t e c)) = none) :
    channel_result t net e ip info c = latency_fail_record net.now e ip info c := by
  simp only [channel_result, h]

lemma channel_result_eq_success (t : CDNTester) (net : Net) (e ip : String)
    (info : Option String × Option String × Option String) (c : Channel) (avg : ℚ) (jit : ℝ)
    (h : measure_latency (net.ping (stream_url t e c)) = some (avg, jit)) :
    channel_result t net e ip info c =
      success_record net.now e ip info c avg jit
        (measure_throughput (net.download (stream_url t e c)) 5) := by
  simp only [channel_result, h]

lemma test_endpoint_mem (t : CDNTester) (net : Net) (e : String) (channels : List Channel)
    (r : TestResult) (hr : r ∈ test_endpoint t net e channels) :
    (∃ c ∈ channels, r = dns_fail_record net.now e c) ∨
    (∃ c ∈ channels, ∃ ip,
      r = latency_fail_record net.now e ip (get_asn_info (net.asnApi ip)) c) ∨
    (∃ c ∈ channels, ∃ ip avg jit,
      r = success_record net.now e ip (get_asn_info (net.asnApi ip)) c avg jit
            (measure_throughput (net.download (stream_url t e c)) 5)) := by
  simp only [test_endpoint] at hr
  rcases h1 : resolve_dns (net.resolve (strip_domain e)) with _ | ip <;> simp only [h1] at hr
  · rw [List.mem_map] at hr
    obtain ⟨c, hc, heq⟩ := hr
    exact Or.inl ⟨c, hc, heq.symm⟩
  · by_cases hip : ip = ""
    · rw [if_pos hip, List.mem_map] at hr
      obtain ⟨c, hc, heq⟩ := hr
      exact Or.inl ⟨c, hc, heq.symm⟩
    · rw [if_neg hip, List.mem_map] at hr
      obtain ⟨c, hc, heq⟩ := hr
      rcases h2 : measure_latency (net.ping (stream_url t e c)) with _ | p
      · rw [channel_result_eq_fail t net e ip _ c h2] at heq
        exact Or.inr (Or.inl ⟨c, hc, ip, heq.symm⟩)
      · obtain ⟨avg, jit⟩ := p
        rw [channel_result_eq_success t net e ip _ c avg jit h2] at heq
        exact Or.inr (Or.inr ⟨c, hc, ip, avg, jit, heq.symm⟩)

/-- Claim C9: every record produced by a run has a success indicator that is
exactly 0 or exactly 100, and the indicator is 100 exactly when the error
message is null. -/
theorem success_rate_binary (t : CDNTester) (net : Net) (dns_entries : List String)
    (channels : List Channel) :
    ∀ r ∈ run_tests t net dns_entries channels,
      (r.success_rate = 0 ∨ r.success_rate = 100) ∧
      (r.success_rate = 100 ↔ r.error_message = none) := by
  intro r hr
  rw [run_tests, List.mem_flatMap] at hr
  obtain ⟨e, -, hr⟩ := hr
  rcases test_endpoint_mem t net e channels r hr with
    ⟨c, -, rfl⟩ | ⟨c, -, ip, rfl⟩ | ⟨c, -, ip, avg, jit, rfl⟩
  · refine ⟨Or.inl rfl, ?_, ?_⟩
    · intro h; exact absurd h (by norm_num [dns_fail_record])
    · intro h; exact absurd h (by simp [dns_fail_record])
  · refine ⟨Or.inl rfl, ?_, ?_⟩
    · intro h; exact absurd h (by norm_num [latency_fail_record])
    · intro h; exact absurd h (by simp [latency_fail_record])
  · exact ⟨Or.inr rfl, by simp [success_record]⟩

/-- Claim C9 witness: a concrete failing run produces a record with success
indicator 0 and a non-null error message. -/
theorem success_rate_binary_witness :
    (dns_fail_record "t0" "http://a" chW ∈ run_tests tW netFail ["http://a"] [chW]) ∧
    ((dns_fail_record "t0" "http://a" chW).success_rate = 0 ∨
      (dns_fail_record "t0" "http://a" chW).success_rate = 100) ∧
    ((dns_fail_record "t0" "http://a" chW).success_rate = 100 ↔
      (dns_fail_record "t0" "http://a" chW).error_message = none) := by
  have hmem : dns_fail_record "t0" "http://a" chW ∈ run_tests tW netFail ["http://a"] [chW] := by
    have : run_tests tW netFail ["http://a"] [chW] = [dns_fail_record "t0" "http://a" chW] := rfl
    rw [this]
    exact List.mem_singleton.mpr rfl
  have h := success_rate_binary tW netFail ["http://a"] [chW] _ hmem
  exact ⟨hmem, h.1, h.2⟩

lemma test_endpoint_map_key (t : CDNTester) (net : Net) (e : String) (I : List Channel)
    (hid : ∀ c ∈ I, c.stream_id ≠ none) :
    (test_endpoint t net e I).map record_key = (I.map channel_key).map (Prod.mk e) := by
  have hfail : ∀ c ∈ I, record_key (dns_fail_record net.now e c) = (e, channel_key c) := by
    intro c hc
    rcases hcs : c.stream_id with _ | s
    · exact absurd hcs (hid c hc)
    · simp [record_key, dns_fail_record, channel_key, pyStr, hcs]
  rw [List.map_map]
  simp only [test_endpoint]
  rcases h1 : resolve_dns (net.resolve (strip_domain e)) with _ | ip <;> simp only [h1]
  · rw [List.map_map]
    exact List.map_congr_left fun c hc => hfail c hc
  · by_cases hip : ip = ""
    · rw [if_pos hip, List.map_map]
      exact List.map_congr_left fun c hc => hfail c hc
    · rw [if_neg hip, List.map_map]
      apply List.map_congr_left
      intro c hc
      show record_key (channel_result t net e ip (get_asn_info (net.asnApi ip)) c) =
        (e, channel_key c)
      rcases h2 : measure_latency (net.ping (stream_url t e c)) with _ | p
      · rw [channel_result_eq_fail t net e ip _ c h2]; rfl
      · obtain ⟨avg, jit⟩ := p
        rw [channel_result_eq_success t net e ip _ c avg jit h2]; rfl

lemma test_endpoint_length (t : CDNTester) (net : Net) (e : String) (I : List Channel) :
    (test_endpoint t net e I).length = I.length := by
  simp only [test_endpoint]
  rcases h1 : resolve_dns (net.resolve (strip_domain e)) with _ | ip <;> simp only [h1]
  · simp
  · by_cases hip : ip = ""
    · rw [if_pos hip]
      simp
    · rw [if_neg hip]
      simp

/-- Claim C1 counterexample: on the non-empty endpoint list with a duplicated
entry and a single channel, the run produces 2 × 1 records whose
(endpoint, item) keys are NOT duplicate-free, refuting the unrestricted
claim that every non-empty endpoint and item list yields one record per
distinct pair with no duplicates. -/
theorem run_tests_pairing_cex :
    (run_tests tW netFail ["http://a", "http://a"] [chW]).length = 2 * 1 ∧
    ¬ (((run_tests tW netFail ["http://a", "http://a"] [chW]).map record_key).Nodup) := by
  constructor
  · rfl
  · decide

/-- Claim C1 (amended): for non-empty lists whose endpoint entries are
pairwise distinct and whose items carry pairwise distinct identifiers, a full
run produces exactly |E| × |I| records, keyed bijectively by the
(endpoint, item identifier) pairs with no duplicates; DNS resolution failure
for an endpoint still emits one failure record per item, so the count
invariant holds regardless of resolution outcome. -/
theorem run_tests_pairing (t : CDNTester) (net : Net) (E : List String) (I : List Channel) :
    (run_tests t net E I).length = E.length * I.length ∧
    (∀ e, resolve_dns (net.resolve (strip_domain e)) = none →
      test_endpoint t net e I = I.map (dns_fail_record net.now e)) ∧
    ((∀ c ∈ I, c.stream_id ≠ none) →
      (run_tests t net E I).map record_key = E ×ˢ (I.map channel_key) ∧
      (E.Nodup → (I.map channel_key).Nodup →
        ((run_tests t net E I).map record_key).Nodup)) := by
  refine ⟨?_, ?_, ?_⟩
  · induction E with
    | nil => simp [run_tests]
    | cons e es ih =>
      show (test_endpoint t net e I ++ run_tests t net es I).length = _
      rw [List.length_append, test_endpoint_length, ih, List.length_cons]
      ring
  · intro e he
    simp only [test_endpoint, he]
  · intro hid
    have hfun : (fun e => (test_endpoint t net e I).map record_key) =
        fun e => (I.map channel_key).map (Prod.mk e) :=
      funext fun e => test_endpoint_map_key t net e I hid
    have hmap : (run_tests t net E I).map record_key = E ×ˢ (I.map channel_key) := by
      calc (run_tests t net E I).map record_key
          = E.flatMap fun e => (test_endpoint t net e I).map record_key := by
            simp only [run_tests, List.map_flatMap]
        _ = E.flatMap fun e => (I.map channel_key).map (Prod.mk e) := by rw [hfun]
        _ = E ×ˢ (I.map channel_key) := rfl
    refine ⟨hmap, fun hEnodup hInodup => ?_⟩
    rw [hmap]
    exact hEnodup.product hInodup

/-- Claim C1 witness: a concrete run over two endpoints that both fail DNS
resolution and two distinct channels yields 2 × 2 records, keyed by the
distinct (endpoint, item identifier) pairs with no duplicates. -/
theorem run_tests_pairing_witness :
    (run_tests tW netFail ["http://a", "http://b"] [chW, chW2]).length =
      (["http://a", "http://b"] : List String).length * ([chW, chW2] : List Channel).length ∧
    (∀ c ∈ [chW, chW2], c.stream_id ≠ none) ∧
    (run_tests tW netFail ["http://a", "http://b"] [chW, chW2]).map record_key =
      (["http://a", "http://b"] : List String) ×ˢ ([chW, chW2].map channel_key) ∧
    ((run_tests tW netFail ["http://a", "http://b"] [chW, chW2]).map record_key).Nodup :=
  ⟨(run_tests_pairing tW netFail ["http://a", "http://b"] [chW, chW2]).1,
   by decide,
   ((run_tests_pairing tW netFail ["http://a", "http://b"] [chW, chW2]).2.2 (by decide)).1,
   ((run_tests_pairing tW netFail ["http://a", "http://b"] [chW, chW2]).2.2 (by decide)).2
     (by decide) (by decide)⟩

lemma dns_score_of_empty (rs : List TestResult) (he : successful_results rs = []) :
    dns_score rs = ⊤ := by
  simp only [dns_score]
  rw [if_pos (by simp [List.isEmpty_iff, he])]

lemma dns_score_of_ne_empty (rs : List TestResult) (hne : successful_results rs ≠ []) :
    dns_score rs = ((mean ((successful_results rs).map TestResult.avg_latency_ms) -
      mean ((successful_results rs).map TestResult.throughput_mbps) * 10 : ℚ) : WithTop ℚ) := by
  simp only [dns_score]
  rw [if_neg (by simpa [List.isEmpty_iff] using hne)]

/-- Claim C2: the report ranking is a stable ascending sort of the
first-seen-ordered endpoint groups by the composite score
mean latency − 10 × mean throughput over the successful records; a group
with no successful record scores positive infinity and therefore appears
after every group with at least one successful record. -/
theorem report_ranking (results : List TestResult) :
    List.Perm (sorted_dns results) (dns_scores results) ∧
    List.Pairwise (fun a b : String × WithTop ℚ => a.2 ≤ b.2) (sorted_dns results) ∧
    (∀ g ∈ by_dns results,
      (dns_score g.2 = ⊤ ↔ successful_results g.2 = []) ∧
      (successful_results g.2 ≠ [] →
        dns_score g.2 =
          ((mean ((successful_results g.2).map TestResult.avg_latency_ms) -
            10 * mean ((successful_results g.2).map TestResult.throughput_mbps) : ℚ) :
            WithTop ℚ))) ∧
    (∀ i j (hi : i < (sorted_dns results).length) (hj : j < (sorted_dns results).length),
      ((sorted_dns results)[i]).2 = ⊤ → ((sorted_dns results)[j]).2 ≠ ⊤ → j < i) ∧
    (∀ a b pre mid post,
      dns_scores results = pre ++ a :: (mid ++ b :: post) → a.2 = b.2 →
      List.Sublist [a, b] (sorted_dns results)) := by
  have htrans : ∀ a b c : String × WithTop ℚ, score_le a b → score_le b c → score_le a c := by
    intro a b c hab hbc
    simp only [score_le, decide_eq_true_eq] at hab hbc ⊢
    exact le_trans hab hbc
  have htotal : ∀ a b : String × WithTop ℚ, score_le a b || score_le b a := by
    intro a b
    simp only [score_le, Bool.or_eq_true, decide_eq_true_eq]
    exact le_total a.2 b.2
  have hsorted : List.Pairwise (fun a b : String × WithTop ℚ => a.2 ≤ b.2)
      (sorted_dns results) := by
    have h := @List.sorted_mergeSort _ score_le htrans htotal (dns_scores results)
    rw [sorted_dns]
    exact h.imp fun hab => of_decide_eq_true (by simpa [score_le] using hab)
  refine ⟨?_, hsorted, ?_, ?_, ?_⟩
  · rw [sorted_dns]
    exact List.mergeSort_perm _ _
  · intro g hg
    constructor
    · by_cases hne : successful_results g.2 = []
      · simp [dns_score_of_empty g.2 hne, hne]
      · rw [dns_score_of_ne_empty g.2 hne]
        exact ⟨fun hcontra => absurd hcontra WithTop.coe_ne_top,
          fun hcontra => absurd hcontra hne⟩
    · intro hne
      rw [dns_score_of_ne_empty g.2 hne]
      norm_cast
      ring
  · intro i j hi hj htop hne
    by_contra hcon
    rcases Nat.lt_or_ge j i with hlt | hge
    · exact hcon hlt
    rcases Nat.eq_or_lt_of_le hge with heq | hlt
    · subst heq
      exact hne htop
    · have hle := List.pairwise_iff_getElem.mp hsorted i j hi hj hlt
      rw [htop] at hle
      exact hne (top_le_iff.mp hle)
  · intro a b pre mid post hdecomp hab
    have hab' : score_le a b = true := decide_eq_true (le_of_eq (by rw [hab]))
    have hsub : List.Sublist [a, b] (dns_scores results) := by
      rw [hdecomp]
      refine List.sublist_append_of_sublist_right ?_
      exact List.Sublist.cons₂ a
        (List.sublist_append_of_sublist_right (List.Sublist.cons₂ b (List.nil_sublist post)))
    rw [sorted_dns]
    exact List.pair_sublist_mergeSort htrans htotal hab' hsub

end CDN
